import Mathlib

/-!
# Verification of the S3 upload Lambda handler

A shallow embedding of `src/lambda/lambda_function.py` (an AWS Lambda
handling PDF uploads) together with proofs about its request/response
behaviour.

Modelling choices:
* Machine-level nondeterminism (current UTC time, the random UUID, and the
  outcomes of the two S3 client calls) is passed in explicitly: a `World`
  carries the clock and UUID characters, an `S3Backend` carries the two
  storage operations as functions that may fail (`Except Unit`).
* Python exceptions are modelled with `Except`: the body of each handler
  returns `Except (List S3Call) (Response × List S3Call)`, where the
  `.error` side is an uncaught Python exception (carrying the S3 calls
  already issued), and the surrounding `try/except` of the source is the
  wrapper that converts it to the generic 500 response.
* `json.dumps` is modelled by keeping the response body as a JSON value
  (`Json`); serialization at the wire boundary is injective on the values
  produced here and plays no role in the claims.
* Each invocation also returns the list of S3 client calls it performed,
  so that "no storage call is attempted" is expressible.
-/

/-- JSON values, as far as this program produces them: strings, integers,
and objects (`json.dumps` input shapes). -/
inductive Json where
  | str : String → Json
  | num : Int → Json
  | obj : List (String × Json) → Json
deriving Repr

/-- Whether a JSON value is an object. -/
def Json.isObj : Json → Bool
  | .obj _ => true
  | _ => false

/-- The response envelope returned to API Gateway:
`{'statusCode': ..., 'headers': ..., 'body': json.dumps(...)}`. -/
structure Response where
  statusCode : Nat
  headers : List (String × String)
  body : Json
deriving Repr

/-- `error_response(status_code, message)` from the source: a response with
the given status, JSON content-type header, and body `{'error': message}`. -/
def error_response (status_code : Nat) (message : String) : Response :=
  { statusCode := status_code
    headers := [("Content-Type", "application/json")]
    body := .obj [("error", .str message)] }

/-- The process environment variables read by the handler
(`os.environ.get`); `none` means the variable is unset. -/
structure Env where
  S3_BUCKET_NAME : Option String
  PRESIGNED_URL_EXPIRY : Option String
  MAX_FILE_SIZE_MB : Option String

/-- The inbound API Gateway HTTP API v2 event, restricted to the fields the
handler reads.  `httpMethod` is `requestContext.http.method` (`none` when the
nested lookup falls through to the `'POST'` default), the other three are the
top-level `event` keys, `none` when absent. -/
structure Event where
  httpMethod : Option String
  queryStringParameters : Option (List (String × String))
  body : Option String
  isBase64Encoded : Option Bool

/-- The fields of `datetime.utcnow()` the handler consumes via
`strftime('%Y%m%d_%H%M%S')`. -/
structure PyDatetime where
  year : Nat
  month : Nat
  day : Nat
  hour : Nat
  minute : Nat
  second : Nat

/-- Ambient nondeterminism of one invocation: the wall clock
(`datetime.utcnow()`) and the characters of `str(uuid.uuid4())`. -/
structure World where
  now : PyDatetime
  uuid : List Char

/-- One condition entry of a presigned POST policy: either a dict condition
`{k: v}` or a range condition `[name, lo, hi]`. -/
inductive S3Condition where
  | kv : String → String → S3Condition
  | range : String → Int → Int → S3Condition
deriving Repr, DecidableEq

/-- A call made to the S3 client, with all its arguments. -/
inductive S3Call where
  | presignedPost (bucket key : String) (fields : List (String × String))
      (conditions : List S3Condition) (expiresIn : Int)
  | putObject (bucket key : String) (body : List Nat)
      (contentType sse : String)
deriving Repr

/-- What `generate_presigned_post` hands back on success: the upload URL and
the form fields (policy, signature, and the echoed fields). -/
structure PresignedPostResult where
  url : String
  fields : List (String × String)

/-- The S3 client (`boto3.client('s3')`), abstracted as the two operations
the handler uses; `.error ()` means the call raised. -/
structure S3Backend where
  presignedPost : String → String → List (String × String) →
      List S3Condition → Int → Except Unit PresignedPostResult
  putObject : String → String → List Nat → String → String →
      Except Unit Unit

/-- Decimal-digit accumulator for `pyInt`. -/
def digitsValGo : Nat → List Char → Option Nat
  | acc, [] => some acc
  | acc, c :: cs =>
      if c.isDigit then digitsValGo (acc * 10 + (c.toNat - 48)) cs else none

/-- Value of a nonempty all-decimal-digit character list. -/
def digitsVal (l : List Char) : Option Nat :=
  if l.isEmpty then none else digitsValGo 0 l

/-- ASCII whitespace as stripped by Python's `int()`. -/
def pyWhitespace (c : Char) : Bool :=
  c = ' ' || c = '\t' || c = '\n' || c = '\r' || c = '\x0b' || c = '\x0c'

/-- Strip leading and trailing whitespace. -/
def pyStrip (l : List Char) : List Char :=
  ((l.dropWhile pyWhitespace).reverse.dropWhile pyWhitespace).reverse

/-- Modelled from Python's built-in `int(str)` (not in src/): surrounding
whitespace is stripped, an optional single sign is allowed, then a nonempty
run of decimal digits; anything else raises `ValueError` (here `none`).
Underscore digit separators and non-ASCII digits/spaces are not modelled; no
claim involves them. -/
def pyInt (s : String) : Option Int :=
  match pyStrip s.data with
  | '+' :: ds => (digitsVal ds).map Int.ofNat
  | '-' :: ds => (digitsVal ds).map (fun n => -(n : Int))
  | ds => (digitsVal ds).map Int.ofNat

/-- Value of a standard base64 alphabet character. -/
def b64val (c : Char) : Option Nat :=
  if 'A' ≤ c ∧ c ≤ 'Z' then some (c.toNat - 65)
  else if 'a' ≤ c ∧ c ≤ 'z' then some (c.toNat - 97 + 26)
  else if '0' ≤ c ∧ c ≤ '9' then some (c.toNat - 48 + 52)
  else if c = '+' then some 62
  else if c = '/' then some 63
  else none

/-- Whether a character is in the standard base64 alphabet. -/
def isB64Char (c : Char) : Bool := (b64val c).isSome

/-- Decode base64 quads after discarding of foreign characters: four data
characters yield three bytes; a quad ending in `=` or `==` yields the final
two or one bytes and decoding stops at the padding; a leftover of one to
three characters is an incorrect-padding error (`none`). -/
def b64quads : List Char → Option (List Nat)
  | [] => some []
  | a :: b :: c :: d :: rest =>
      match b64val a, b64val b with
      | some x, some y =>
          if c = '=' then
            if d = '=' then some [x * 4 + y / 16] else none
          else
            match b64val c with
            | some z =>
                if d = '=' then some [x * 4 + y / 16, y % 16 * 16 + z / 4]
                else
                  match b64val d with
                  | some u =>
                      (b64quads rest).map
                        (fun t => (x * 4 + y / 16) :: ((y % 16 * 16 + z / 4) ::
                          ((z % 4 * 64 + u) :: t)))
                  | none => none
            | none => none
      | _, _ => none
  | _ => none

/-- Modelled from Python's `base64.b64decode` (stdlib, not in src/) in its
default non-validating mode: characters outside the alphabet and `=` are
discarded, then the remainder is decoded in quads with trailing `=` padding;
a leftover of 1–3 characters raises `binascii.Error` (here `none`).  Corner
placements of `=` inside the stream, which no claim exercises, are decoded
up to the first padded quad. -/
def b64decode (s : String) : Option (List Nat) :=
  b64quads (s.data.filter (fun c => isB64Char c || c = '='))

/-- Query-parameter lookup (`params.get(k)`). -/
def qlookup (l : List (String × String)) (k : String) : Option String :=
  (l.find? (fun p => p.1 == k)).map (·.2)

/-- A digit character of `n` (its last decimal digit): how Python's decimal
formatting renders each digit position. -/
def decDigit (d : Nat) : Char :=
  match d % 10 with
  | 0 => '0' | 1 => '1' | 2 => '2' | 3 => '3' | 4 => '4'
  | 5 => '5' | 6 => '6' | 7 => '7' | 8 => '8' | _ => '9'

/-- The last `w` decimal digits of `n`, zero-padded to width `w`: for
`n < 10^w` this is exactly the zero-padded decimal rendering used by
`strftime`'s numeric directives. -/
def padDigits : Nat → Nat → List Char
  | 0, _ => []
  | w + 1, n => padDigits w (n / 10) ++ [decDigit n]

/-- Modelled from `datetime.strftime('%Y%m%d_%H%M%S')` (stdlib, not in
src/): the timestamp characters.  `%Y` is rendered as four digits — for the
reachable inputs (`datetime.utcnow()`, year between 1000 and 9999) this
matches the platform behaviour exactly. -/
def strftimeChars (t : PyDatetime) : List Char :=
  padDigits 4 t.year ++ padDigits 2 t.month ++ padDigits 2 t.day ++
    '_' :: (padDigits 2 t.hour ++ padDigits 2 t.minute ++ padDigits 2 t.second)

/-- `timestamp = datetime.utcnow().strftime('%Y%m%d_%H%M%S')`. -/
def pyStrftime (t : PyDatetime) : String := String.mk (strftimeChars t)

/-- `unique_id = str(uuid.uuid4())[:8]`. -/
def uniqueId (w : World) : String := String.mk (w.uuid.take 8)

/-- `filename = f"uploads/{timestamp}_{unique_id}.pdf"` of the direct-upload
path. -/
def directUploadKey (w : World) : String :=
  "uploads/" ++ pyStrftime w.now ++ "_" ++ uniqueId w ++ ".pdf"

/-- `filename.split('.')[-1] if '.' in filename else 'pdf'`: the characters
after the last dot when a dot is present, else `"pdf"`. -/
def extOf (filename : String) : String :=
  if filename.data.contains '.' then
    String.mk ((filename.data.reverse.takeWhile (fun c => c != '.')).reverse)
  else "pdf"

/-- `s3_key = f"uploads/{timestamp}_{unique_id}.{file_extension}"` of the
presigned-URL path. -/
def presignKey (w : World) (filename : String) : String :=
  "uploads/" ++ pyStrftime w.now ++ "_" ++ uniqueId w ++ "." ++ extOf filename

/-- `allowed_types = ['application/pdf', 'image/jpeg', 'image/png']`. -/
def allowed_types : List String := ["application/pdf", "image/jpeg", "image/png"]

/-- `int(params.get('maxSize', 100 * 1024 * 1024))`: the parsed `maxSize`
query parameter, or the 100 MiB default; `none` when present but unparseable
(a `ValueError`). -/
def paramMaxSize (params : List (String × String)) : Option Int :=
  match qlookup params "maxSize" with
  | some s => pyInt s
  | none => some (100 * 1024 * 1024)

/-- `int(os.environ.get('PRESIGNED_URL_EXPIRY', 3600))`: `none` when the
variable is set but unparseable. -/
def envExpiry (env : Env) : Option Int :=
  match env.PRESIGNED_URL_EXPIRY with
  | some s => pyInt s
  | none => some 3600

/-- `int(os.environ.get('MAX_FILE_SIZE_MB', 6))`: `none` when the variable
is set but unparseable. -/
def envMaxMb (env : Env) : Option Int :=
  match env.MAX_FILE_SIZE_MB with
  | some s => pyInt s
  | none => some 6

/-- `b'%PDF'` as bytes. -/
def pdfMagic : List Nat := [37, 80, 68, 70]

/-- The `try`-body of `generate_presigned_url(bucket_name, event)`:
`.error calls` is an uncaught exception after having issued `calls`. -/
def gpu_body (env : Env) (w : World) (be : S3Backend) (bucket_name : String)
    (event : Event) : Except (List S3Call) (Response × List S3Call) :=
  let params := event.queryStringParameters.getD []
  let filename := (qlookup params "filename").getD "document.pdf"
  let content_type := (qlookup params "contentType").getD "application/pdf"
  match paramMaxSize params with
  | none => .error []
  | some max_size =>
    if ¬ allowed_types.contains content_type then
      .ok (error_response 400
        ("Content type must be one of: " ++ String.intercalate ", " allowed_types), [])
    else
      let s3_key := presignKey w filename
      match envExpiry env with
      | none => .error []
      | some expiry =>
        let fields := [("Content-Type", content_type),
                       ("x-amz-server-side-encryption", "AES256")]
        let conditions := [S3Condition.kv "Content-Type" content_type,
                           S3Condition.range "content-length-range" 1 max_size,
                           S3Condition.kv "x-amz-server-side-encryption" "AES256"]
        let call := S3Call.presignedPost bucket_name s3_key fields conditions expiry
        match be.presignedPost bucket_name s3_key fields conditions expiry with
        | .error _ => .error [call]
        | .ok pp =>
            .ok ({ statusCode := 200
                   headers := [("Content-Type", "application/json")]
                   body := .obj [("uploadUrl", .str pp.url),
                                 ("fields", .obj (pp.fields.map (fun p => (p.1, .str p.2)))),
                                 ("key", .str s3_key),
                                 ("bucket", .str bucket_name),
                                 ("expiresIn", .num expiry)] }, [call])

/-- `generate_presigned_url(bucket_name, event)`: the body above, with the
`except Exception` clause turning any exception into
500 `Failed to generate upload URL`. -/
def generate_presigned_url (env : Env) (w : World) (be : S3Backend)
    (bucket_name : String) (event : Event) : Response × List S3Call :=
  match gpu_body env w be bucket_name event with
  | .ok r => r
  | .error calls => (error_response 500 "Failed to generate upload URL", calls)

/-- The `try`-body of `handle_direct_upload(bucket_name, event)`. -/
def hdu_body (env : Env) (w : World) (be : S3Backend) (bucket_name : String)
    (event : Event) : Except (List S3Call) (Response × List S3Call) :=
  let body := event.body.getD ""
  let is_base64 := event.isBase64Encoded.getD false
  if is_base64 then
    match b64decode body with
    | none => .error []
    | some file_content =>
      match envMaxMb env with
      | none => .error []
      | some max_size_mb =>
        let max_size := max_size_mb * 1024 * 1024
        let file_size : Int := file_content.length
        if file_size > max_size then
          .ok (error_response 413
            ("File too large. Use presigned URL for files > " ++ toString max_size_mb ++ "MB"), [])
        else if ¬ pdfMagic.isPrefixOf file_content then
          .ok (error_response 400 "File is not a valid PDF", [])
        else
          let filename := directUploadKey w
          let call := S3Call.putObject bucket_name filename file_content
            "application/pdf" "AES256"
          match be.putObject bucket_name filename file_content
              "application/pdf" "AES256" with
          | .error _ => .error [call]
          | .ok _ =>
              .ok ({ statusCode := 200
                     headers := [("Content-Type", "application/json")]
                     body := .obj [("message", .str "File uploaded successfully"),
                                   ("filename", .str filename),
                                   ("bucket", .str bucket_name),
                                   ("size", .num file_size)] }, [call])
  else
    .ok (error_response 400 "File must be base64 encoded", [])

/-- `handle_direct_upload(bucket_name, event)`: the body above, with the
`except Exception` clause turning any exception into 500 `Upload failed`. -/
def handle_direct_upload (env : Env) (w : World) (be : S3Backend)
    (bucket_name : String) (event : Event) : Response × List S3Call :=
  match hdu_body env w be bucket_name event with
  | .ok r => r
  | .error calls => (error_response 500 "Upload failed", calls)

/-- A character of the regex class `[0-9a-f]`. -/
def isLowerHexChar (c : Char) : Bool := c.isDigit || ('a' ≤ c && c ≤ 'f')

/-- Tail of the upload-key regex after the second underscore:
`[0-9a-f]{8}\.pdf`, matched exactly. -/
def matchTail4 (l : List Char) : Bool :=
  (l.take 8).all isLowerHexChar && (l.take 8).length == 8 && l.drop 8 == ".pdf".data

/-- Tail of the upload-key regex from the second underscore. -/
def matchTail3 : List Char → Bool
  | '_' :: rest => matchTail4 rest
  | _ => false

/-- Tail of the upload-key regex after the first underscore:
`\d{6}_[0-9a-f]{8}\.pdf`. -/
def matchTail2 (l : List Char) : Bool :=
  (l.take 6).all Char.isDigit && (l.take 6).length == 6 && matchTail3 (l.drop 6)

/-- Tail of the upload-key regex from the first underscore. -/
def matchTail1 : List Char → Bool
  | '_' :: rest => matchTail2 rest
  | _ => false

/-- Tail of the upload-key regex after the `uploads/` literal:
`\d{8}_\d{6}_[0-9a-f]{8}\.pdf`. -/
def matchTail0 (l : List Char) : Bool :=
  (l.take 8).all Char.isDigit && (l.take 8).length == 8 && matchTail1 (l.drop 8)

/-- Exact match of the whole key against the spec's pattern
`uploads/\d{8}_\d{6}_[0-9a-f]{8}\.pdf`. -/
def matchUploadKey : List Char → Bool
  | 'u' :: 'p' :: 'l' :: 'o' :: 'a' :: 'd' :: 's' :: '/' :: rest => matchTail0 rest
  | _ => false

/-- `lambda_handler(event, context)`.  The enclosing `try/except` of the
source cannot fire in this model because both sub-handlers already catch
every exception and the bucket lookup and dispatch cannot raise. -/
def lambda_handler (env : Env) (w : World) (be : S3Backend) (event : Event) :
    Response × List S3Call :=
  match env.S3_BUCKET_NAME with
  | none => (error_response 500 "Internal server error", [])
  | some bucket_name =>
    if bucket_name = "" then (error_response 500 "Internal server error", [])
    else
      let http_method := event.httpMethod.getD "POST"
      if http_method = "GET" then
        generate_presigned_url env w be bucket_name event
      else if http_method = "POST" then
        handle_direct_upload env w be bucket_name event
      else
        (error_response 405 "Method not allowed", [])

/-- The response-envelope invariant of the spec: status in
{200, 400, 405, 413, 500}, JSON content-type header, JSON-object body. -/
def okShape (r : Response) : Prop :=
  (r.statusCode = 200 ∨ r.statusCode = 400 ∨ r.statusCode = 405 ∨
    r.statusCode = 413 ∨ r.statusCode = 500) ∧
  r.headers = [("Content-Type", "application/json")] ∧
  r.body.isObj = true

/-- A sample wall-clock value for concrete instantiations. -/
def sampleNow : PyDatetime := ⟨2026, 10, 12, 3, 4, 5⟩

/-- A sample `str(uuid.uuid4())` outcome and clock. -/
def sampleWorld : World := ⟨sampleNow, "1a2b3c4d-9e8f-4a5b-8c6d-0123456789ab".data⟩

/-- A backend whose two operations always succeed. -/
def okBackend : S3Backend :=
  ⟨fun _ _ _ _ _ => .ok ⟨"https://s3.example/upload", [("policy", "p")]⟩,
   fun _ _ _ _ _ => .ok ()⟩

/-- A backend whose two operations always raise. -/
def failBackend : S3Backend :=
  ⟨fun _ _ _ _ _ => .error (), fun _ _ _ _ _ => .error ()⟩

/-- An environment with only the bucket configured. -/
def bucketOnlyEnv : Env := ⟨some "my-bucket", none, none⟩

/-- Base64 of a 100-byte payload `%PDF` followed by 96 `A` bytes. -/
def body100 : String :=
  "JVBERkFB" ++ String.join (List.replicate 31 "QUFB") ++ "QQ=="

/-- The 100 decoded bytes of `body100`. -/
def content100 : List Nat := pdfMagic ++ List.replicate 96 65

/-- Each rendered decimal digit is a digit character. -/
theorem decDigit_isDigit (d : Nat) : (decDigit d).isDigit = true := by
  unfold decDigit
  split <;> decide

/-- Zero-padded rendering has exactly the requested width. -/
theorem padDigits_length (w n : Nat) : (padDigits w n).length = w := by
  induction w generalizing n with
  | zero => rfl
  | succ k ih => simp [padDigits, ih]

/-- Zero-padded rendering consists of digit characters only. -/
theorem padDigits_digits (w n : Nat) : (padDigits w n).all Char.isDigit = true := by
  induction w generalizing n with
  | zero => rfl
  | succ k ih => simp [padDigits, List.all_append, ih, decDigit_isDigit]

/-- Any key assembled from the `uploads/` literal, eight digit characters,
six digit characters and eight lower-hex characters matches the spec's
upload-key pattern. -/
theorem matchUploadKey_build (d8 d6 h8 : List Char)
    (l8 : d8.length = 8) (l6 : d6.length = 6) (lh : h8.length = 8)
    (hd8 : d8.all Char.isDigit = true) (hd6 : d6.all Char.isDigit = true)
    (hh8 : h8.all isLowerHexChar = true) :
    matchUploadKey ("uploads/".data ++
      (d8 ++ ('_' :: (d6 ++ ('_' :: (h8 ++ ".pdf".data)))))) = true := by
  have h0 : ∀ X, matchUploadKey ("uploads/".data ++ X) = matchTail0 X :=
    fun _ => rfl
  rw [h0]
  unfold matchTail0
  rw [List.take_left' l8, List.drop_left' l8]
  have h1 : ∀ X, matchTail1 ('_' :: X) = matchTail2 X := fun _ => rfl
  rw [h1]
  unfold matchTail2
  rw [List.take_left' l6, List.drop_left' l6]
  have h3 : ∀ X, matchTail3 ('_' :: X) = matchTail4 X := fun _ => rfl
  rw [h3]
  unfold matchTail4
  rw [List.take_left' lh, List.drop_left' lh]
  simp [hd8, hd6, hh8, l8, l6, lh]

/-- `(String.mk l).data = l`. -/
theorem data_mk (l : List Char) : (String.mk l).data = l := rfl

/-- The direct-upload key decomposed into the pattern's segments. -/
theorem directUploadKey_data (w : World) :
    (directUploadKey w).data =
      "uploads/".data ++
        ((padDigits 4 w.now.year ++ (padDigits 2 w.now.month ++ padDigits 2 w.now.day)) ++
          ('_' :: ((padDigits 2 w.now.hour ++
              (padDigits 2 w.now.minute ++ padDigits 2 w.now.second)) ++
            ('_' :: (w.uuid.take 8 ++ ".pdf".data))))) := by
  simp [directUploadKey, pyStrftime, strftimeChars, uniqueId, data_mk,
    String.data_append, List.append_assoc]

/-- Whenever the first eight UUID characters are eight lower-hex characters,
the direct-upload key matches the spec's pattern. -/
theorem directUploadKey_matches (w : World)
    (hu : (w.uuid.take 8).length = 8)
    (hhex : (w.uuid.take 8).all isLowerHexChar = true) :
    matchUploadKey (directUploadKey w).data = true := by
  rw [directUploadKey_data]
  exact matchUploadKey_build _ _ _
    (by simp [padDigits_length]) (by simp [padDigits_length]) hu
    (by simp [List.all_append, padDigits_digits])
    (by simp [List.all_append, padDigits_digits]) hhex

/-- With the bucket configured and an effective method `POST`, the handler
delegates to the direct-upload path. -/
theorem lambda_handler_to_post (env : Env) (w : World) (be : S3Backend)
    (event : Event) (b : String)
    (hb : env.S3_BUCKET_NAME = some b) (hne : b ≠ "")
    (hm : event.httpMethod.getD "POST" = "POST") :
    lambda_handler env w be event = handle_direct_upload env w be b event := by
  unfold lambda_handler
  rw [hb]
  simp [hne, hm]

/-- With the bucket configured and method `GET`, the handler delegates to
the presigned-URL path. -/
theorem lambda_handler_to_get (env : Env) (w : World) (be : S3Backend)
    (event : Event) (b : String)
    (hb : env.S3_BUCKET_NAME = some b) (hne : b ≠ "")
    (hm : event.httpMethod = some "GET") :
    lambda_handler env w be event = generate_presigned_url env w be b event := by
  unfold lambda_handler
  rw [hb]
  simp [hne, hm]

/-- Every response constructed by the presigned-URL path satisfies the
envelope invariant. -/
theorem gpu_body_ok_shape (env : Env) (w : World) (be : S3Backend)
    (b : String) (event : Event) (r : Response × List S3Call)
    (h : gpu_body env w be b event = .ok r) : okShape r.1 := by
  unfold gpu_body at h
  dsimp only at h
  cases hms : paramMaxSize (event.queryStringParameters.getD []) with
  | none => rw [hms] at h; simp at h
  | some ms =>
      rw [hms] at h
      dsimp only at h
      split at h
      · cases h
        simp [okShape, error_response, Json.isObj]
      · cases hex : envExpiry env with
        | none => rw [hex] at h; simp at h
        | some e =>
            rw [hex] at h
            dsimp only at h
            split at h
            all_goals cases h
            simp [okShape, error_response, Json.isObj]

/-- Every response constructed by the direct-upload path satisfies the
envelope invariant. -/
theorem hdu_body_ok_shape (env : Env) (w : World) (be : S3Backend)
    (b : String) (event : Event) (r : Response × List S3Call)
    (h : hdu_body env w be b event = .ok r) : okShape r.1 := by
  unfold hdu_body at h
  dsimp only at h
  split at h
  · cases hdec : b64decode (event.body.getD "") with
    | none => rw [hdec] at h; simp at h
    | some file_content =>
        rw [hdec] at h
        dsimp only at h
        cases hmb : envMaxMb env with
        | none => rw [hmb] at h; simp at h
        | some mb =>
            rw [hmb] at h
            dsimp only at h
            split at h
            · cases h
              simp [okShape, error_response, Json.isObj]
            · split at h
              · cases h
                simp [okShape, error_response, Json.isObj]
              · split at h
                all_goals cases h
                simp [okShape, error_response, Json.isObj]
  · cases h
    simp [okShape, error_response, Json.isObj]

/-- The wrapped presigned-URL handler satisfies the envelope invariant. -/
theorem gpu_ok_shape (env : Env) (w : World) (be : S3Backend)
    (b : String) (event : Event) :
    okShape (generate_presigned_url env w be b event).1 := by
  unfold generate_presigned_url
  cases hgb : gpu_body env w be b event with
  | ok r => exact gpu_body_ok_shape env w be b event r hgb
  | error calls => simp [okShape, error_response, Json.isObj]

/-- The wrapped direct-upload handler satisfies the envelope invariant. -/
theorem hdu_ok_shape (env : Env) (w : World) (be : S3Backend)
    (b : String) (event : Event) :
    okShape (handle_direct_upload env w be b event).1 := by
  unfold handle_direct_upload
  cases hgb : hdu_body env w be b event with
  | ok r => exact hdu_body_ok_shape env w be b event r hgb
  | error calls => simp [okShape, error_response, Json.isObj]

/-- C2: for every inbound request, the handler returns a response envelope
whose statusCode is one of {200, 400, 405, 413, 500}, whose headers map
Content-Type to application/json, and whose body is a JSON object; no other
status code or response shape is ever produced. -/
theorem claim_C2_envelope (env : Env) (w : World) (be : S3Backend) (event : Event) :
    okShape (lambda_handler env w be event).1 := by
  unfold lambda_handler
  cases env.S3_BUCKET_NAME with
  | none => simp [okShape, error_response, Json.isObj]
  | some b =>
      dsimp only
      split
      · simp [okShape, error_response, Json.isObj]
      · split
        · exact gpu_ok_shape env w be b event
        · split
          · exact hdu_ok_shape env w be b event
          · simp [okShape, error_response, Json.isObj]

/-- C3: with the bucket configured, the dispatcher routes GET to the
presigned-credential issuer, POST (or an absent method, which defaults to
POST) to the direct-upload handler, and any other method to a 405
"Method not allowed" response. -/
theorem claim_C3_routing (env : Env) (w : World) (be : S3Backend) (event : Event)
    (b : String) (hb : env.S3_BUCKET_NAME = some b) (hne : b ≠ "") :
    (event.httpMethod = some "GET" →
      lambda_handler env w be event = generate_presigned_url env w be b event) ∧
    ((event.httpMethod = some "POST" ∨ event.httpMethod = none) →
      lambda_handler env w be event = handle_direct_upload env w be b event) ∧
    (∀ m, event.httpMethod = some m → m ≠ "GET" → m ≠ "POST" →
      lambda_handler env w be event = (error_response 405 "Method not allowed", [])) := by
  refine ⟨fun hm => lambda_handler_to_get env w be event b hb hne hm,
    fun hm => ?_, fun m hm h1 h2 => ?_⟩
  · apply lambda_handler_to_post env w be event b hb hne
    rcases hm with hm | hm <;> simp [hm]
  · unfold lambda_handler
    rw [hb]
    simp [hne, hm, h1, h2]

/-- Witness for C3: an event with no method field is routed to the
direct-upload handler. -/
theorem claim_C3_witness :
    lambda_handler bucketOnlyEnv sampleWorld okBackend ⟨none, none, some "x", some false⟩ =
      handle_direct_upload bucketOnlyEnv sampleWorld okBackend "my-bucket"
        ⟨none, none, some "x", some false⟩ :=
  (claim_C3_routing bucketOnlyEnv sampleWorld okBackend _ "my-bucket" rfl
    (by decide)).2.1 (Or.inr rfl)

/-- C4: when the bucket configuration is missing or empty, every request,
regardless of method, returns 500 and no storage operation is invoked. -/
theorem claim_C4_missing_bucket (env : Env) (w : World) (be : S3Backend) (event : Event)
    (h : env.S3_BUCKET_NAME = none ∨ env.S3_BUCKET_NAME = some "") :
    lambda_handler env w be event = (error_response 500 "Internal server error", []) := by
  unfold lambda_handler
  rcases h with h | h <;> simp [h]

/-- Witness for C4: unset bucket variable on a GET request. -/
theorem claim_C4_witness :
    lambda_handler ⟨none, none, none⟩ sampleWorld okBackend ⟨some "GET", none, none, none⟩ =
      (error_response 500 "Internal server error", []) :=
  claim_C4_missing_bucket _ sampleWorld okBackend _ (Or.inl rfl)

/-- C6: a POST whose isBase64Encoded flag is false is rejected with
400 "File must be base64 encoded" regardless of the body, and no storage
write is attempted. -/
theorem claim_C6_not_base64 (env : Env) (w : World) (be : S3Backend) (event : Event)
    (b : String) (hb : env.S3_BUCKET_NAME = some b) (hne : b ≠ "")
    (hm : event.httpMethod.getD "POST" = "POST")
    (h64 : event.isBase64Encoded = some false) :
    lambda_handler env w be event = (error_response 400 "File must be base64 encoded", []) := by
  rw [lambda_handler_to_post env w be event b hb hne hm]
  unfold handle_direct_upload hdu_body
  simp [h64]

/-- Witness for C6: a POST with a raw body and the flag false. -/
theorem claim_C6_witness :
    lambda_handler bucketOnlyEnv sampleWorld okBackend
        ⟨some "POST", none, some "hello", some false⟩ =
      (error_response 400 "File must be base64 encoded", []) :=
  claim_C6_not_base64 bucketOnlyEnv sampleWorld okBackend _ "my-bucket" rfl
    (by decide) rfl rfl

/-- Counterexample to C5 as stated: a GET with an invalid contentType AND an
unparseable maxSize returns 500 "Failed to generate upload URL", not the 400
listing the allowed types, because `int(maxSize)` is evaluated first and its
failure is caught by the broad handler. -/
theorem claim_C5_counterexample :
    qlookup [("contentType", "text/plain"), ("maxSize", "abc")] "contentType" =
        some "text/plain" ∧
    allowed_types.contains "text/plain" = false ∧
    lambda_handler bucketOnlyEnv sampleWorld okBackend
        ⟨some "GET", some [("contentType", "text/plain"), ("maxSize", "abc")], none, none⟩ =
      (error_response 500 "Failed to generate upload URL", []) :=
  ⟨rfl, rfl, rfl⟩

/-- C5 as amended: a GET whose contentType parameter is outside the allowed
set returns the 400 response listing exactly the three allowed types,
provided `maxSize` (when present) parses as an integer. -/
theorem claim_C5_amended (env : Env) (w : World) (be : S3Backend) (event : Event)
    (b ct : String) (ms : Int)
    (hb : env.S3_BUCKET_NAME = some b) (hne : b ≠ "")
    (hm : event.httpMethod = some "GET")
    (hct : qlookup (event.queryStringParameters.getD []) "contentType" = some ct)
    (hbad : allowed_types.contains ct = false)
    (hms : paramMaxSize (event.queryStringParameters.getD []) = some ms) :
    lambda_handler env w be event =
      (error_response 400
        "Content type must be one of: application/pdf, image/jpeg, image/png", []) := by
  have hmem : ct ∉ allowed_types := by simpa using hbad
  rw [lambda_handler_to_get env w be event b hb hne hm]
  unfold generate_presigned_url gpu_body
  dsimp only
  rw [hms]
  dsimp only
  simp [hct, hmem]
  rfl

/-- Witness for the amended C5: contentType `text/plain`, no maxSize. -/
theorem claim_C5_witness :
    lambda_handler bucketOnlyEnv sampleWorld okBackend
        ⟨some "GET", some [("contentType", "text/plain")], none, none⟩ =
      (error_response 400
        "Content type must be one of: application/pdf, image/jpeg, image/png", []) :=
  claim_C5_amended bucketOnlyEnv sampleWorld okBackend _ "my-bucket" "text/plain"
    (100 * 1024 * 1024) rfl (by decide) rfl rfl rfl rfl

/-- C9: a GET whose maxSize is present but unparseable returns
500 "Failed to generate upload URL" rather than any 400 validation error,
even though its contentType is also invalid: maxSize parsing precedes
content-type validation and the failure hits the broad exception handler. -/
theorem claim_C9_maxsize_parse_500 :
    pyInt "notanint" = none ∧
    allowed_types.contains "text/plain" = false ∧
    lambda_handler bucketOnlyEnv sampleWorld okBackend
        ⟨some "GET", some [("maxSize", "notanint"), ("contentType", "text/plain")],
          none, none⟩ =
      (error_response 500 "Failed to generate upload URL", []) :=
  ⟨rfl, rfl, rfl⟩

/-- C10: a POST flagged base64 whose body "AA" is undecodable (incorrect
padding) returns 500 "Upload failed" — the same response component a
storage-backend failure on a well-formed upload produces, so the two are
indistinguishable to the caller. -/
theorem claim_C10_bad_base64_500 :
    b64decode "AA" = none ∧
    (lambda_handler bucketOnlyEnv sampleWorld okBackend
        ⟨some "POST", none, some "AA", some true⟩).1 =
      error_response 500 "Upload failed" ∧
    (lambda_handler bucketOnlyEnv sampleWorld failBackend
        ⟨some "POST", none, some "JVBERg==", some true⟩).1 =
      error_response 500 "Upload failed" :=
  ⟨rfl, rfl, rfl⟩

/-- Counterexample to C1 as stated: with the size limit configured to 0 MB,
a POST with valid base64 of four non-`%PDF` bytes — a decoded length that
exceeds the configured limit — returns 413 "File too large", not the claimed
400 "File is not a valid PDF": the size check runs before the magic check. -/
theorem claim_C1_counterexample :
    b64decode "QUFBQQ==" = some [65, 65, 65, 65] ∧
    pdfMagic.isPrefixOf [65, 65, 65, 65] = false ∧
    pyInt "0" = some 0 ∧
    lambda_handler ⟨some "my-bucket", none, some "0"⟩ sampleWorld okBackend
        ⟨some "POST", none, some "QUFBQQ==", some true⟩ =
      (error_response 413 "File too large. Use presigned URL for files > 0MB", []) :=
  ⟨rfl, rfl, rfl, rfl⟩

/-- C1 as amended: a POST flagged base64 whose body decodes to bytes not
starting with `%PDF` returns 400 "File is not a valid PDF" provided the
decoded length is within the configured size limit; beyond the limit the
handler returns 413 instead. -/
theorem claim_C1_amended (env : Env) (w : World) (be : S3Backend) (event : Event)
    (b : String) (content : List Nat) (mb : Int)
    (hb : env.S3_BUCKET_NAME = some b) (hne : b ≠ "")
    (hm : event.httpMethod.getD "POST" = "POST")
    (h64 : event.isBase64Encoded = some true)
    (hdec : b64decode (event.body.getD "") = some content)
    (hmb : envMaxMb env = some mb)
    (hsize : (content.length : Int) ≤ mb * 1024 * 1024)
    (hpdf : pdfMagic.isPrefixOf content = false) :
    lambda_handler env w be event = (error_response 400 "File is not a valid PDF", []) := by
  have hnotgt : ¬ ((content.length : Int) > mb * 1024 * 1024) := not_lt.mpr hsize
  rw [lambda_handler_to_post env w be event b hb hne hm]
  unfold handle_direct_upload hdu_body
  dsimp only
  simp [h64, hdec, hmb, hnotgt, hpdf]

/-- Witness for the amended C1: four non-PDF bytes within the limit. -/
theorem claim_C1_witness :
    lambda_handler bucketOnlyEnv sampleWorld okBackend
        ⟨some "POST", none, some "QUFBQQ==", some true⟩ =
      (error_response 400 "File is not a valid PDF", []) :=
  claim_C1_amended bucketOnlyEnv sampleWorld okBackend _ "my-bucket"
    [65, 65, 65, 65] 6 rfl (by decide) rfl rfl (by decide) rfl (by decide) (by decide)

/-- C7: a POST flagged base64 whose body decodes to `%PDF`-prefixed bytes
within the size limit, when the storage write succeeds, returns 200 with
`size` equal to the decoded byte length and a filename matching
`uploads/\d{8}_\d{6}_[0-9a-f]{8}\.pdf` (timestamp, 8-hex random suffix,
fixed `.pdf` extension); exactly one `put_object` call is made, with the
decoded bytes, content type `application/pdf` and AES256 encryption. -/
theorem claim_C7_direct_upload_success (env : Env) (w : World) (be : S3Backend)
    (event : Event) (b : String) (content : List Nat) (mb : Int)
    (hb : env.S3_BUCKET_NAME = some b) (hne : b ≠ "")
    (hm : event.httpMethod.getD "POST" = "POST")
    (h64 : event.isBase64Encoded = some true)
    (hdec : b64decode (event.body.getD "") = some content)
    (hmb : envMaxMb env = some mb)
    (hsize : (content.length : Int) ≤ mb * 1024 * 1024)
    (hpdf : pdfMagic.isPrefixOf content = true)
    (hput : ∀ k bdy, be.putObject b k bdy "application/pdf" "AES256" = Except.ok ())
    (hu : (w.uuid.take 8).length = 8)
    (hhex : (w.uuid.take 8).all isLowerHexChar = true) :
    lambda_handler env w be event =
      ({ statusCode := 200
         headers := [("Content-Type", "application/json")]
         body := .obj [("message", .str "File uploaded successfully"),
                       ("filename", .str (directUploadKey w)),
                       ("bucket", .str b),
                       ("size", .num content.length)] },
       [S3Call.putObject b (directUploadKey w) content "application/pdf" "AES256"]) ∧
    matchUploadKey (directUploadKey w).data = true := by
  refine ⟨?_, directUploadKey_matches w hu hhex⟩
  have hnotgt : ¬ ((content.length : Int) > mb * 1024 * 1024) := not_lt.mpr hsize
  rw [lambda_handler_to_post env w be event b hb hne hm]
  unfold handle_direct_upload hdu_body
  dsimp only
  simp [h64, hdec, hmb, hnotgt, hpdf, hput]

/-- Witness for C7: a 100-byte `%PDF` payload, default limit, succeeding
backend; the decoded size is exactly 100. -/
theorem claim_C7_witness :
    (lambda_handler bucketOnlyEnv sampleWorld okBackend
        ⟨some "POST", none, some body100, some true⟩ =
      ({ statusCode := 200
         headers := [("Content-Type", "application/json")]
         body := .obj [("message", .str "File uploaded successfully"),
                       ("filename", .str (directUploadKey sampleWorld)),
                       ("bucket", .str "my-bucket"),
                       ("size", .num 100)] },
       [S3Call.putObject "my-bucket" (directUploadKey sampleWorld) content100
          "application/pdf" "AES256"]) ∧
    matchUploadKey (directUploadKey sampleWorld).data = true) ∧
    content100.length = 100 :=
  ⟨claim_C7_direct_upload_success bucketOnlyEnv sampleWorld okBackend _ "my-bucket"
      content100 6 rfl (by decide) rfl rfl (by decide) rfl (by decide) (by decide)
      (fun _ _ => rfl) (by decide) (by decide),
    by decide⟩

/-- C8: a GET with an allowed contentType and well-formed maxSize, when the
backend succeeds, returns 200 with the backend's URL and fields, the
constructed key, the bucket, and expiresIn equal to the configured expiry
(the `envExpiry` fallback chain, never a query parameter); the single
`generate_presigned_post` call carries exactly the conditions
Content-Type = requested type, content-length-range [1, maxSize], and
server-side-encryption AES256. -/
theorem claim_C8_presign_success (env : Env) (w : World) (be : S3Backend)
    (event : Event) (b ct : String) (ms e : Int) (pp : PresignedPostResult)
    (hb : env.S3_BUCKET_NAME = some b) (hne : b ≠ "")
    (hm : event.httpMethod = some "GET")
    (hct : qlookup (event.queryStringParameters.getD []) "contentType" = some ct)
    (hallowed : allowed_types.contains ct = true)
    (hms : paramMaxSize (event.queryStringParameters.getD []) = some ms)
    (hex : envExpiry env = some e)
    (hbe : ∀ k f c x, be.presignedPost b k f c x = Except.ok pp) :
    lambda_handler env w be event =
      ({ statusCode := 200
         headers := [("Content-Type", "application/json")]
         body := .obj [("uploadUrl", .str pp.url),
                       ("fields", .obj (pp.fields.map (fun p => (p.1, .str p.2)))),
                       ("key", .str (presignKey w
                         ((qlookup (event.queryStringParameters.getD []) "filename").getD
                           "document.pdf"))),
                       ("bucket", .str b),
                       ("expiresIn", .num e)] },
       [S3Call.presignedPost b
          (presignKey w
            ((qlookup (event.queryStringParameters.getD []) "filename").getD "document.pdf"))
          [("Content-Type", ct), ("x-amz-server-side-encryption", "AES256")]
          [S3Condition.kv "Content-Type" ct,
           S3Condition.range "content-length-range" 1 ms,
           S3Condition.kv "x-amz-server-side-encryption" "AES256"] e]) := by
  have hmem : ct ∈ allowed_types := by simpa using hallowed
  rw [lambda_handler_to_get env w be event b hb hne hm]
  unfold generate_presigned_url gpu_body
  dsimp only
  rw [hms]
  dsimp only
  rw [hct]
  simp [hmem, hex, hbe]

/-- Witness for C8: contentType image/png, maxSize 5000, filename pic.png,
no expiry configured (fallback 3600), succeeding backend. -/
theorem claim_C8_witness :
    lambda_handler bucketOnlyEnv sampleWorld okBackend
        ⟨some "GET",
          some [("contentType", "image/png"), ("maxSize", "5000"), ("filename", "pic.png")],
          none, none⟩ =
      ({ statusCode := 200
         headers := [("Content-Type", "application/json")]
         body := .obj [("uploadUrl", .str "https://s3.example/upload"),
                       ("fields", .obj [("policy", .str "p")]),
                       ("key", .str (presignKey sampleWorld "pic.png")),
                       ("bucket", .str "my-bucket"),
                       ("expiresIn", .num 3600)] },
       [S3Call.presignedPost "my-bucket" (presignKey sampleWorld "pic.png")
          [("Content-Type", "image/png"), ("x-amz-server-side-encryption", "AES256")]
          [S3Condition.kv "Content-Type" "image/png",
           S3Condition.range "content-length-range" 1 5000,
           S3Condition.kv "x-amz-server-side-encryption" "AES256"] 3600]) :=
  claim_C8_presign_success bucketOnlyEnv sampleWorld okBackend _ "my-bucket"
    "image/png" 5000 3600 ⟨"https://s3.example/upload", [("policy", "p")]⟩
    rfl (by decide) rfl rfl rfl rfl rfl (fun _ _ _ _ => rfl)
